import Mathlib

/-!
Verification of the `ConsistencyChecks` data-quality engine
(`data_quality/consistency.py`) against its specification.

The embedding models a pandas DataFrame as a list of named columns of
cells; a cell is a rational number, a string, or null (pandas `NaN`/`None`).
Each `metrics_*` / `rules_*` method of `ConsistencyChecks` is translated
to a Lean function; the two string-keyed dispatchers `metrics` and `rules`
are translated as functions over an argument list, with Python call errors
(unknown check type, arity mismatch / missing argument) modelled by
`Except.error`.  Floating-point arithmetic is modelled by exact arithmetic
(`ℚ`, with `ℝ` for numpy's square root in `np.std`).
-/

namespace DataQuality

/-- A cell of a DataFrame column: a numeric value, a string, or a
null/missing value (pandas `NaN` / `None`).  Pandas `duplicated` and
`isnull` treat all nulls as equal, matching `DecidableEq` here. -/
inductive Cell where
  | num  (q : ℚ)
  | str  (s : String)
  | null
deriving DecidableEq

/-- A DataFrame: a row count (the length of the pandas index, i.e. what
Python `len(df)` returns) and named columns. -/
structure DataFrame where
  nrows : Nat
  cols  : List (String × List Cell)
deriving DecidableEq

/-- Well-formedness (the invariant pandas maintains): every column has
`nrows` cells and column names are distinct. -/
def DataFrame.WF (df : DataFrame) : Prop :=
  (∀ p ∈ df.cols, p.2.length = df.nrows) ∧ (df.cols.map Prod.fst).Nodup

instance (df : DataFrame) : Decidable df.WF := by
  unfold DataFrame.WF; infer_instance

/-- The set of column names (`set(df.columns)`). -/
def DataFrame.colNames (df : DataFrame) : Finset String :=
  (df.cols.map Prod.fst).toFinset

/-- Column lookup, `df[c]` as a partial operation. -/
def DataFrame.col? (df : DataFrame) (c : String) : Option (List Cell) :=
  (df.cols.find? (fun p => p.1 == c)).map Prod.snd

/-- Column access `df[c]`: raises `KeyError` when the column is absent
(the "column not found" condition of the spec). -/
def DataFrame.get (df : DataFrame) (c : String) : Except String (List Cell) :=
  match df.col? c with
  | some l => .ok l
  | none   => .error ("KeyError: " ++ c)

/-- `cell < q` as pandas evaluates it elementwise: false on null
(`NaN` comparisons are false) and on non-numeric cells. -/
def cellLt (x : Cell) (q : ℚ) : Bool :=
  match x with
  | .num v => decide (v < q)
  | _ => false

/-- `cell > q`, elementwise as in pandas; false on null. -/
def cellGt (x : Cell) (q : ℚ) : Bool :=
  match x with
  | .num v => decide (q < v)
  | _ => false

/-- The numeric values of a column, nulls dropped (pandas numeric
reductions such as `.var()` skip `NaN`). -/
def colVals (l : List Cell) : List ℚ :=
  l.filterMap (fun x => match x with | .num q => some q | _ => none)

/-- `series.isnull().sum()`: the number of null cells. -/
def nullCount (l : List Cell) : Nat :=
  (l.filter (fun x => x == Cell.null)).length

/-- `series.duplicated().sum()` with accumulator `seen`: counts the
entries equal to some earlier entry (each value's occurrences beyond the
first). -/
def dupCount (seen : List Cell) : List Cell → Nat
  | [] => 0
  | x :: xs => (if x ∈ seen then 1 else 0) + dupCount (x :: seen) xs

/-- The number of distinct values of a column. -/
def distinctCount (l : List Cell) : Nat := l.toFinset.card

/-- `pandas.Series.var()`: sample variance (ddof = 1).  For fewer than
two values pandas yields `NaN`; here the division by zero collapses to 0,
so theorems about variance assume at least two values. -/
def sampleVar (l : List ℚ) : ℚ :=
  let n : ℚ := l.length
  let m : ℚ := l.sum / n
  (l.map (fun x => (x - m) ^ 2)).sum / (n - 1)

/-- Python list/Series slicing `xs[i:]` for an integer `i`: a negative
`i` counts from the end, clamped at 0; a positive `i` past the end gives
the empty list. -/
def pySliceFrom (l : List ℚ) (i : ℤ) : List ℚ :=
  if i < 0 then l.drop (((l.length : ℤ) + i).toNat) else l.drop i.toNat

/-- `np.mean` over exact rationals. -/
def npMean (l : List ℚ) : ℚ := l.sum / l.length

/-- Population variance (`np.std` squares, ddof = 0). -/
def npVar (l : List ℚ) : ℚ :=
  (l.map (fun x => (x - npMean l) ^ 2)).sum / l.length

/-- `np.std`: population standard deviation, the real square root of the
population variance. -/
noncomputable def npStd (l : List ℚ) : ℝ := Real.sqrt (npVar l)

/-- `metrics_unique_identifiers(df, id_col)`:
`df[id_col].duplicated().sum()`. -/
def metrics_unique_identifiers (df : DataFrame) (id_col : String) :
    Except String Nat :=
  (df.get id_col).map (dupCount [])

/-- `rules_unique_identifiers(df, id_col)`. -/
def rules_unique_identifiers (df : DataFrame) (id_col : String) :
    Except String (Bool × String) := do
  let duplicates ← metrics_unique_identifiers df id_col
  return (decide (duplicates = 0),
    toString duplicates ++ " duplicate identifiers found.")

/-- Rendering of a Python set of strings in an f-string (order fixed by
sorting; Python's set order is unspecified). -/
def renderSet (s : Finset String) : String :=
  String.intercalate ", " (s.sort (· ≤ ·))

/-- Rendering of a Python dict of null counts in an f-string. -/
def renderCounts (l : List (String × Nat)) : String :=
  String.intercalate ", " (l.map (fun p => p.1 ++ ": " ++ toString p.2))

/-- `metrics_schema_consistency(df, expected_columns)`:
`set(expected_columns) - set(df.columns)`. -/
def metrics_schema_consistency (df : DataFrame) (expected_columns : List String) :
    Finset String :=
  expected_columns.toFinset \ df.colNames

/-- `rules_schema_consistency(df, expected_columns)`. -/
def rules_schema_consistency (df : DataFrame) (expected_columns : List String) :
    Bool × String :=
  let missing_cols := metrics_schema_consistency df expected_columns
  (decide (missing_cols.card = 0), "Missing columns: " ++ renderSet missing_cols)

/-- `metrics_non_null(df, columns)`: `{col: df[col].isnull().sum() for col
in columns}` (a dict, modelled as an association list in column order;
a missing column raises from `df[col]`). -/
def metrics_non_null (df : DataFrame) : List String →
    Except String (List (String × Nat))
  | [] => .ok []
  | c :: cs =>
    match df.get c, metrics_non_null df cs with
    | .ok l, .ok rest => .ok ((c, nullCount l) :: rest)
    | .error e, _ => .error e
    | .ok _, .error e => .error e

/-- `rules_non_null(df, columns)`: keeps the columns with a nonzero null
count and passes iff none remain. -/
def rules_non_null (df : DataFrame) (columns : List String) :
    Except String (Bool × String) :=
  match metrics_non_null df columns with
  | .error e => .error e
  | .ok null_counts =>
    let invalid_cols := null_counts.filter (fun p => 0 < p.2)
    .ok (decide (invalid_cols.length = 0),
      "Null values found in columns: " ++ renderCounts invalid_cols)

/-- `metrics_threshold(df, column, min_val, max_val)`:
`((df[column] < min_val) | (df[column] > max_val)).sum()`. -/
def metrics_threshold (df : DataFrame) (column : String) (min_val max_val : ℚ) :
    Except String Nat :=
  (df.get column).map
    (fun l => (l.filter (fun x => cellLt x min_val || cellGt x max_val)).length)

/-- `rules_threshold(df, column, min_val, max_val)`. -/
def rules_threshold (df : DataFrame) (column : String) (min_val max_val : ℚ) :
    Except String (Bool × String) := do
  let outliers ← metrics_threshold df column min_val max_val
  return (decide (outliers = 0),
    toString outliers ++ " values are outside the range [" ++ toString min_val
      ++ ", " ++ toString max_val ++ "].")

/-- `metrics_dynamic_threshold(df, column, reference_value, tolerance)`:
counts values strictly below `reference_value * (1 - tolerance)` or
strictly above `reference_value * (1 + tolerance)`. -/
def metrics_dynamic_threshold (df : DataFrame) (column : String)
    (reference_value tolerance : ℚ) : Except String Nat :=
  (df.get column).map
    (fun l => (l.filter (fun x =>
      cellLt x (reference_value * (1 - tolerance)) ||
      cellGt x (reference_value * (1 + tolerance)))).length)

/-- `rules_dynamic_threshold(df, column, reference_value, tolerance)`. -/
def rules_dynamic_threshold (df : DataFrame) (column : String)
    (reference_value tolerance : ℚ) : Except String (Bool × String) := do
  let outliers ← metrics_dynamic_threshold df column reference_value tolerance
  return (decide (outliers = 0),
    toString outliers ++ " values exceed dynamic thresholds.")

/-- `metrics_variance(df, column)`: `df[column].var()` (sample variance,
nulls skipped). -/
def metrics_variance (df : DataFrame) (column : String) : Except String ℚ :=
  (df.get column).map (fun l => sampleVar (colVals l))

/-- `rules_variance(df, column, max_variance)`: `max_variance` has no
default. -/
def rules_variance (df : DataFrame) (column : String) (max_variance : ℚ) :
    Except String (Bool × String) := do
  let variance ← metrics_variance df column
  return (decide (variance ≤ max_variance),
    "Variance (" ++ toString variance ++ ") exceeds the maximum allowed ("
      ++ toString max_variance ++ ").")

/-- `metrics_record_anomalies(record_counts, lookback_period)`: the mean
and population standard deviation of `record_counts[-lookback_period:]`.
The default `lookback_period=30` is applied at the dispatcher. -/
noncomputable def metrics_record_anomalies (record_counts : List ℚ)
    (lookback_period : ℤ) : ℚ × ℝ :=
  (npMean (pySliceFrom record_counts (-lookback_period)),
   npStd (pySliceFrom record_counts (-lookback_period)))

/-- `rules_record_anomalies(record_counts, current_count, lookback_period)`.
`fmt` renders a float in the message (float formatting is not modelled). -/
noncomputable def rules_record_anomalies (fmt : ℝ → String)
    (record_counts : List ℚ) (current_count : ℚ) (lookback_period : ℤ) :
    Bool × String :=
  let ms := metrics_record_anomalies record_counts lookback_period
  let lower_limit : ℝ := (ms.1 : ℝ) - 3 * ms.2
  let upper_limit : ℝ := (ms.1 : ℝ) + 3 * ms.2
  (decide (lower_limit ≤ (current_count : ℝ) ∧ (current_count : ℝ) ≤ upper_limit),
    "Record count " ++ toString current_count
      ++ " is outside 3 standard deviations [" ++ fmt lower_limit ++ ", "
      ++ fmt upper_limit ++ "] of the mean.")

/-- `metrics_non_zero_records(df)`: `len(df)`. -/
def metrics_non_zero_records (df : DataFrame) : Nat := df.nrows

/-- `rules_non_zero_records(df)`: passes iff the row count is positive;
the message is the fixed string below in both cases. -/
def rules_non_zero_records (df : DataFrame) : Bool × String :=
  (decide (0 < metrics_non_zero_records df), "No records found in the dataset.")

/-- `metrics_column_name_consistency(df, historical_columns)`:
`set(historical_columns) - set(df.columns)`. -/
def metrics_column_name_consistency (df : DataFrame)
    (historical_columns : List String) : Finset String :=
  historical_columns.toFinset \ df.colNames

/-- `rules_column_name_consistency(df, historical_columns)`. -/
def rules_column_name_consistency (df : DataFrame)
    (historical_columns : List String) : Bool × String :=
  let inconsistent_cols := metrics_column_name_consistency df historical_columns
  (decide (inconsistent_cols.card = 0),
    "Inconsistent column names: " ++ renderSet inconsistent_cols)

/-- The check-specific shape of a metric result (§3 of the spec: integer
count, set of column names, mapping column→count, variance, or a
(mean, std) pair). -/
inductive MetricResult where
  | count    (n : Nat)
  | nameSet  (s : Finset String)
  | countMap (m : List (String × Nat))
  | ratVal   (q : ℚ)
  | meanStd  (mean : ℚ) (std : ℝ)

/-- A Python value passed through the dispatchers' `*args`. -/
inductive Arg where
  | table  (df : DataFrame)
  | name   (s : String)
  | num    (q : ℚ)
  | names  (l : List String)
  | series (l : List ℚ)
  | int    (n : ℤ)

/-- The `metrics(check_type, *args)` dispatcher of `ConsistencyChecks`:
routes by exact string match to the `metrics_<name>` method, forwarding
the arguments verbatim; an unrecognized `check_type` raises
`ValueError(f"Unknown check type for metrics: {check_type}")`.  A call
whose arguments do not fit the target method's signature raises a Python
`TypeError`, modelled by the per-branch catch-all. -/
noncomputable def metrics (check_type : String) (args : List Arg) :
    Except String MetricResult :=
  if check_type = "unique_identifiers" then
    match args with
    | [.table df, .name id_col] =>
        (metrics_unique_identifiers df id_col).map .count
    | _ => .error "TypeError: invalid arguments for metrics_unique_identifiers"
  else if check_type = "schema_consistency" then
    match args with
    | [.table df, .names expected_columns] =>
        .ok (.nameSet (metrics_schema_consistency df expected_columns))
    | _ => .error "TypeError: invalid arguments for metrics_schema_consistency"
  else if check_type = "non_null" then
    match args with
    | [.table df, .names columns] =>
        (metrics_non_null df columns).map .countMap
    | _ => .error "TypeError: invalid arguments for metrics_non_null"
  else if check_type = "threshold" then
    match args with
    | [.table df, .name column, .num min_val, .num max_val] =>
        (metrics_threshold df column min_val max_val).map .count
    | _ => .error "TypeError: invalid arguments for metrics_threshold"
  else if check_type = "dynamic_threshold" then
    match args with
    | [.table df, .name column, .num reference_value, .num tolerance] =>
        (metrics_dynamic_threshold df column reference_value tolerance).map .count
    | _ => .error "TypeError: invalid arguments for metrics_dynamic_threshold"
  else if check_type = "variance" then
    match args with
    | [.table df, .name column] => (metrics_variance df column).map .ratVal
    | _ => .error "TypeError: invalid arguments for metrics_variance"
  else if check_type = "record_anomalies" then
    match args with
    | [.series record_counts] =>
        .ok (.meanStd (metrics_record_anomalies record_counts 30).1
          (metrics_record_anomalies record_counts 30).2)
    | [.series record_counts, .int lookback_period] =>
        .ok (.meanStd (metrics_record_anomalies record_counts lookback_period).1
          (metrics_record_anomalies record_counts lookback_period).2)
    | _ => .error "TypeError: invalid arguments for metrics_record_anomalies"
  else if check_type = "non_zero_records" then
    match args with
    | [.table df] => .ok (.count (metrics_non_zero_records df))
    | _ => .error "TypeError: invalid arguments for metrics_non_zero_records"
  else if check_type = "column_name_consistency" then
    match args with
    | [.table df, .names historical_columns] =>
        .ok (.nameSet (metrics_column_name_consistency df historical_columns))
    | _ => .error "TypeError: invalid arguments for metrics_column_name_consistency"
  else .error ("Unknown check type for metrics: " ++ check_type)

/-- The `rules(check_type, *args)` dispatcher of `ConsistencyChecks`.
`fmt` renders floats in the `record_anomalies` message.  Calling the
variance rule without its `max_variance` argument (which has no default)
raises a missing-argument `TypeError`. -/
noncomputable def rules (fmt : ℝ → String) (check_type : String) (args : List Arg) :
    Except String (Bool × String) :=
  if check_type = "unique_identifiers" then
    match args with
    | [.table df, .name id_col] => rules_unique_identifiers df id_col
    | _ => .error "TypeError: invalid arguments for rules_unique_identifiers"
  else if check_type = "schema_consistency" then
    match args with
    | [.table df, .names expected_columns] =>
        .ok (rules_schema_consistency df expected_columns)
    | _ => .error "TypeError: invalid arguments for rules_schema_consistency"
  else if check_type = "non_null" then
    match args with
    | [.table df, .names columns] => rules_non_null df columns
    | _ => .error "TypeError: invalid arguments for rules_non_null"
  else if check_type = "threshold" then
    match args with
    | [.table df, .name column, .num min_val, .num max_val] =>
        rules_threshold df column min_val max_val
    | _ => .error "TypeError: invalid arguments for rules_threshold"
  else if check_type = "dynamic_threshold" then
    match args with
    | [.table df, .name column, .num reference_value, .num tolerance] =>
        rules_dynamic_threshold df column reference_value tolerance
    | _ => .error "TypeError: invalid arguments for rules_dynamic_threshold"
  else if check_type = "variance" then
    match args with
    | [.table df, .name column, .num max_variance] =>
        rules_variance df column max_variance
    | [.table _, .name _] =>
        .error "TypeError: rules_variance missing 1 required positional argument: max_variance"
    | _ => .error "TypeError: invalid arguments for rules_variance"
  else if check_type = "record_anomalies" then
    match args with
    | [.series record_counts, .num current_count] =>
        .ok (rules_record_anomalies fmt record_counts current_count 30)
    | [.series record_counts, .num current_count, .int lookback_period] =>
        .ok (rules_record_anomalies fmt record_counts current_count lookback_period)
    | _ => .error "TypeError: invalid arguments for rules_record_anomalies"
  else if check_type = "non_zero_records" then
    match args with
    | [.table df] => .ok (rules_non_zero_records df)
    | _ => .error "TypeError: invalid arguments for rules_non_zero_records"
  else if check_type = "column_name_consistency" then
    match args with
    | [.table df, .names historical_columns] =>
        .ok (rules_column_name_consistency df historical_columns)
    | _ => .error "TypeError: invalid arguments for rules_column_name_consistency"
  else .error ("Unknown check type for rules: " ++ check_type)

/-- The nine recognized check names, in dispatch order. -/
def checkNames : List String :=
  ["unique_identifiers", "schema_consistency", "non_null", "threshold",
   "dynamic_threshold", "variance", "record_anomalies", "non_zero_records",
   "column_name_consistency"]

/-- `df.cols ++ [(c, vals)]`: the table extended with one more column. -/
def addCol (df : DataFrame) (c : String) (vals : List Cell) : DataFrame :=
  ⟨df.nrows, df.cols ++ [(c, vals)]⟩

/-- The table with every column named `c` removed. -/
def dropCol (df : DataFrame) (c : String) : DataFrame :=
  ⟨df.nrows, df.cols.filter (fun p => p.1 != c)⟩

/-- The sample table of the repository's test fixture: ids
`[1,2,3,4,4]`, names with one null, values `[10,20,30,40,50]`
(the timestamp column is immaterial to the claims and modelled as
strings). -/
def sample_df : DataFrame :=
  ⟨5,
   [("id", [.num 1, .num 2, .num 3, .num 4, .num 4]),
    ("name", [.str "Alice", .str "Bob", .str "Charlie", .str "David", .null]),
    ("value", [.num 10, .num 20, .num 30, .num 40, .num 50]),
    ("timestamp", [.str "2023-01-01", .str "2023-01-02", .str "2023-01-03",
                   .str "2023-01-04", .str "2023-01-05"])]⟩

/-- An empty table. -/
def empty_df : DataFrame := ⟨0, [("id", []), ("name", [])]⟩

/-- `needle` occurs verbatim inside `hay` (used to state that a rule
message reports a value). -/
def Mentions (needle hay : String) : Prop :=
  ∃ a b : String, hay = a ++ needle ++ b

/-- A column whose cells are all numeric or null, as the numeric checks
assume. -/
def Cell.isNum : Cell → Bool
  | .num _ => true
  | _ => false

/-- A column containing only numeric and null cells. -/
def numericCol (l : List Cell) : Prop :=
  ∀ x ∈ l, x.isNum = true ∨ x = Cell.null

instance (l : List Cell) : Decidable (numericCol l) := by
  unfold numericCol; infer_instance

/-- The state of a `ConsistencyChecks` instance: its Python attribute
dictionary.  The class defines no `__init__` and its methods never assign
an attribute, so no check ever writes to it. -/
structure CCInstance where
  attrs : List (String × Arg)

/-- One dispatcher invocation in a caller's program: which entry point,
the check name, and the caller's variables passed as arguments. -/
structure Call where
  useRules   : Bool
  check_type : String
  argNames   : List String

/-- The outcome of one invocation. -/
inductive Resp where
  | metricsR (r : Except String MetricResult)
  | rulesR   (r : Except String (Bool × String))
  | nameError

/-- Run one dispatcher invocation against the caller's environment `env`
(variable bindings holding the tables and sequences) and the instance
state `st`.  Every operation the source performs on its arguments
(`duplicated`, `isnull`, elementwise comparison, `set()`, `len`,
slicing, `np.mean`, `np.std`, `.var()`) allocates fresh objects and
mutates nothing, and the methods never assign instance attributes, so
the call leaves `env` and `st` unchanged. -/
noncomputable def runCall (fmt : ℝ → String) (env : List (String × Arg))
    (st : CCInstance) (c : Call) :
    (List (String × Arg)) × CCInstance × Resp :=
  (env, st,
    match c.argNames.mapM (fun n => (env.find? (fun p => p.1 == n)).map Prod.snd) with
    | none => .nameError
    | some args =>
        if c.useRules then .rulesR (rules fmt c.check_type args)
        else .metricsR (metrics c.check_type args))

/-- Run a sequence of invocations, threading the environment and the
instance state from call to call. -/
noncomputable def runTrace (fmt : ℝ → String) (env : List (String × Arg))
    (st : CCInstance) :
    List Call → (List (String × Arg)) × CCInstance × List Resp
  | [] => (env, st, [])
  | c :: cs =>
      let r := runCall fmt env st c
      let rest := runTrace fmt r.1 r.2.1 cs
      (rest.1, rest.2.1, r.2.2 :: rest.2.2)

/-! ### Helper lemmas -/

theorem dupCount_add_card (l : List Cell) :
    ∀ seen : List Cell,
      dupCount seen l + (l.toFinset \ seen.toFinset).card = l.length := by
  induction l with
  | nil => intro seen; simp [dupCount]
  | cons x xs ih =>
    intro seen
    by_cases hx : x ∈ seen
    · have hset : (x :: xs).toFinset \ seen.toFinset = xs.toFinset \ seen.toFinset := by
        ext y
        simp only [List.toFinset_cons, Finset.mem_sdiff, Finset.mem_insert,
          List.mem_toFinset]
        constructor
        · rintro ⟨hy | hy, hns⟩
          · exact absurd (hy ▸ hx) hns
          · exact ⟨hy, hns⟩
        · rintro ⟨hy, hns⟩; exact ⟨Or.inr hy, hns⟩
      have hseen : (x :: seen).toFinset = seen.toFinset := by
        simp [List.toFinset_cons, Finset.insert_eq_self, hx]
      have := ih (x :: seen)
      rw [hseen] at this
      simp only [dupCount, if_pos hx, hset, List.length_cons]
      omega
    · have hseen : (x :: seen).toFinset = insert x seen.toFinset := by
        simp [List.toFinset_cons]
      have hset : (x :: xs).toFinset \ seen.toFinset =
          insert x (xs.toFinset \ (x :: seen).toFinset) := by
        ext y
        simp only [List.toFinset_cons, Finset.mem_sdiff, Finset.mem_insert,
          List.mem_toFinset, hseen]
        constructor
        · rintro ⟨hy | hy, hns⟩
          · exact Or.inl hy
          · by_cases hyx : y = x
            · exact Or.inl hyx
            · exact Or.inr ⟨hy, fun h => (h.elim hyx hns)⟩
        · rintro (hy | ⟨hy, hns⟩)
          · subst hy; exact ⟨Or.inl rfl, fun h => hx h⟩
          · exact ⟨Or.inr hy, fun h => hns (Or.inr h)⟩
      have hnotmem : x ∉ xs.toFinset \ (x :: seen).toFinset := by
        simp [hseen]
      have := ih (x :: seen)
      simp only [dupCount, if_neg hx, hset, Finset.card_insert_of_not_mem hnotmem,
        List.length_cons]
      omega

theorem dupCount_eq_length_sub (l : List Cell) :
    dupCount [] l = l.length - distinctCount l := by
  have := dupCount_add_card l []
  simp only [List.toFinset_nil, Finset.sdiff_empty] at this
  unfold distinctCount
  omega

theorem col?_mem {df : DataFrame} {c : String} {l : List Cell}
    (h : df.col? c = some l) : (c, l) ∈ df.cols := by
  unfold DataFrame.col? at h
  rcases Option.map_eq_some'.mp h with ⟨p, hfind, hsnd⟩
  have hmem := List.mem_of_find?_eq_some hfind
  have hpred := List.find?_some hfind
  have hc : p.1 = c := by simpa using hpred
  cases p with
  | mk a b => cases hc; cases hsnd; exact hmem

theorem col?_length {df : DataFrame} {c : String} {l : List Cell}
    (hWF : df.WF) (h : df.col? c = some l) : l.length = df.nrows :=
  hWF.1 (c, l) (col?_mem h)

theorem get_eq_ok {df : DataFrame} {c : String} {l : List Cell}
    (h : df.col? c = some l) : df.get c = .ok l := by
  unfold DataFrame.get; rw [h]

/-! ### C1 -/

/-- C1: for every string outside the nine recognized check names and any
argument list, both dispatchers fail with the unknown-check-type error
carrying the offending name, and never return an `ok` value. -/
theorem unknown_check_type_rejected :
    ∀ check_type : String, check_type ∉ checkNames →
    ∀ (args : List Arg) (fmt : ℝ → String),
      metrics check_type args =
        .error ("Unknown check type for metrics: " ++ check_type) ∧
      rules fmt check_type args =
        .error ("Unknown check type for rules: " ++ check_type) := by
  intro ct h args fmt
  simp only [checkNames, List.mem_cons, List.not_mem_nil, or_false,
    not_or] at h
  obtain ⟨h1, h2, h3, h4, h5, h6, h7, h8, h9⟩ := h
  constructor
  · simp [metrics, h1, h2, h3, h4, h5, h6, h7, h8, h9]
  · simp [rules, h1, h2, h3, h4, h5, h6, h7, h8, h9]

/-- Witness for C1 at the check name `"nonexistent"`. -/
theorem unknown_check_type_rejected_witness :
    "nonexistent" ∉ checkNames ∧
    metrics "nonexistent" [] =
      .error ("Unknown check type for metrics: " ++ "nonexistent") ∧
    rules (fun _ => "") "nonexistent" [] =
      .error ("Unknown check type for rules: " ++ "nonexistent") :=
  ⟨by decide, unknown_check_type_rejected "nonexistent" (by decide) [] (fun _ => "")⟩

/-! ### C2 -/

/-- C2: for a table with identifier column `c` present, the
`unique_identifiers` metric equals the row count minus the number of
distinct values of the column, and the rule passes iff that count is 0;
on the fixture table with ids `[1,2,3,4,4]` the metric is 1 and the rule
returns `(False, "1 duplicate identifiers found.")`. -/
theorem unique_identifiers_correct :
    (∀ (df : DataFrame) (c : String) (l : List Cell) (fmt : ℝ → String),
      df.WF → df.col? c = some l →
      metrics "unique_identifiers" [.table df, .name c] =
        .ok (.count (df.nrows - distinctCount l)) ∧
      ((rules fmt "unique_identifiers" [.table df, .name c]).map Prod.fst =
          .ok true ↔ df.nrows - distinctCount l = 0)) ∧
    metrics "unique_identifiers" [.table sample_df, .name "id"] =
      .ok (.count 1) ∧
    ∀ fmt : ℝ → String,
      rules fmt "unique_identifiers" [.table sample_df, .name "id"] =
        .ok (false, "1 duplicate identifiers found.") := by
  refine ⟨?_, ?_, ?_⟩
  · intro df c l fmt hWF hcol
    have hlen : l.length = df.nrows := col?_length hWF hcol
    have hdup : dupCount [] l = df.nrows - distinctCount l := by
      rw [dupCount_eq_length_sub, hlen]
    constructor
    · simp [metrics, metrics_unique_identifiers, get_eq_ok hcol, Except.map, hdup]
    · simp [rules, rules_unique_identifiers, metrics_unique_identifiers,
        get_eq_ok hcol, Except.map, hdup]
  · have h : metrics_unique_identifiers sample_df "id" = .ok 1 := by rfl
    simp [metrics, h, Except.map]
  · intro fmt
    have h : rules_unique_identifiers sample_df "id" =
        .ok (false, "1 duplicate identifiers found.") := by rfl
    simp [rules, h]

/-- Witness for C2: the general part instantiated at the fixture table. -/
theorem unique_identifiers_correct_witness :
    sample_df.WF ∧
    sample_df.col? "id" = some [.num 1, .num 2, .num 3, .num 4, .num 4] ∧
    metrics "unique_identifiers" [.table sample_df, .name "id"] =
      .ok (.count (sample_df.nrows -
        distinctCount [.num 1, .num 2, .num 3, .num 4, .num 4])) :=
  ⟨by decide, by decide,
    (unique_identifiers_correct.1 sample_df "id"
      [.num 1, .num 2, .num 3, .num 4, .num 4] (fun _ => "")
      (by decide) (by decide)).1⟩

/-! ### C3 -/

/-- C3: for bounds `lo ≤ hi`, the threshold metric counts exactly the
values strictly below `lo` or strictly above `hi`, so a value equal to a
bound is never counted; the dynamic threshold counts exactly the values
strictly outside `[r*(1-t), r*(1+t)]`; both rules pass iff the count
is 0. -/
theorem threshold_strict_bounds :
    ∀ (df : DataFrame) (c : String) (l : List Cell) (lo hi : ℚ)
      (fmt : ℝ → String),
      df.col? c = some l → numericCol l → lo ≤ hi →
      (metrics "threshold" [.table df, .name c, .num lo, .num hi] =
        .ok (.count ((l.filter (fun x => cellLt x lo || cellGt x hi)).length))) ∧
      (∀ x ∈ l, (x = Cell.num lo ∨ x = Cell.num hi) →
        x ∉ l.filter (fun x => cellLt x lo || cellGt x hi)) ∧
      ((rules fmt "threshold" [.table df, .name c, .num lo, .num hi]).map
          Prod.fst = .ok true ↔
        (l.filter (fun x => cellLt x lo || cellGt x hi)).length = 0) ∧
      ∀ r t : ℚ,
        (metrics "dynamic_threshold" [.table df, .name c, .num r, .num t] =
          .ok (.count ((l.filter (fun x =>
            cellLt x (r * (1 - t)) || cellGt x (r * (1 + t)))).length))) ∧
        ((rules fmt "dynamic_threshold" [.table df, .name c, .num r, .num t]).map
            Prod.fst = .ok true ↔
          (l.filter (fun x =>
            cellLt x (r * (1 - t)) || cellGt x (r * (1 + t)))).length = 0) := by
  intro df c l lo hi fmt hcol hnum hlohi
  refine ⟨?_, ?_, ?_, ?_⟩
  · simp [metrics, metrics_threshold, get_eq_ok hcol, Except.map]
  · intro x hx hbound
    simp only [List.mem_filter, not_and, Bool.or_eq_true, not_or]
    intro _
    rcases hbound with h | h <;> subst h <;>
      simp only [cellLt, cellGt, decide_eq_true_eq] <;>
      constructor <;> simp <;> linarith
  · simp [rules, rules_threshold, metrics_threshold, get_eq_ok hcol, Except.map]
  · intro r t
    constructor
    · simp [metrics, metrics_dynamic_threshold, get_eq_ok hcol, Except.map]
    · simp [rules, rules_dynamic_threshold, metrics_dynamic_threshold,
        get_eq_ok hcol, Except.map]

/-- Witness for C3 at the fixture value column with bounds `[10, 50]`. -/
theorem threshold_strict_bounds_witness :
    sample_df.col? "value" =
      some [.num 10, .num 20, .num 30, .num 40, .num 50] ∧
    numericCol [.num 10, .num 20, .num 30, .num 40, .num 50] ∧
    (10 : ℚ) ≤ 50 ∧
    metrics "threshold" [.table sample_df, .name "value", .num 10, .num 50] =
      .ok (.count (([.num 10, .num 20, .num 30, .num 40, .num 50].filter
        (fun x => cellLt x 10 || cellGt x 50)).length)) :=
  ⟨by decide, by decide, by norm_num,
    (threshold_strict_bounds sample_df "value"
      [.num 10, .num 20, .num 30, .num 40, .num 50] 10 50 (fun _ => "")
      (by decide) (by decide) (by norm_num)).1⟩

/-! ### C4 -/

/-- C4: `schema_consistency` and `column_name_consistency` both return
exactly the expected/historical names absent from the table's columns;
adding a column not in the expected list never changes the result,
removing an expected column always inserts that name (which was not in
the result while present); the rules pass iff the set is empty. -/
theorem set_difference_checks_directional :
    ∀ (df : DataFrame) (L : List String) (fmt : ℝ → String),
      (metrics "schema_consistency" [.table df, .names L] =
        .ok (.nameSet (L.toFinset \ df.colNames))) ∧
      (metrics "column_name_consistency" [.table df, .names L] =
        .ok (.nameSet (L.toFinset \ df.colNames))) ∧
      (∀ (c : String) (vals : List Cell), c ∉ L →
        metrics_schema_consistency (addCol df c vals) L =
          metrics_schema_consistency df L ∧
        metrics_column_name_consistency (addCol df c vals) L =
          metrics_column_name_consistency df L) ∧
      (∀ c : String, c ∈ L →
        metrics_schema_consistency (dropCol df c) L =
          insert c (metrics_schema_consistency df L) ∧
        (c ∈ df.colNames → c ∉ metrics_schema_consistency df L) ∧
        metrics_column_name_consistency (dropCol df c) L =
          insert c (metrics_column_name_consistency df L)) ∧
      (((rules fmt "schema_consistency" [.table df, .names L]).map Prod.fst =
          .ok true) ↔ ∀ c ∈ L, c ∈ df.colNames) ∧
      (((rules fmt "column_name_consistency" [.table df, .names L]).map
          Prod.fst = .ok true) ↔ ∀ c ∈ L, c ∈ df.colNames) := by
  intro df L fmt
  have hdropNames : ∀ c y, (y ∈ (dropCol df c).colNames ↔
      y ∈ df.colNames ∧ y ≠ c) := by
    intro c y
    simp only [DataFrame.colNames, dropCol, List.mem_toFinset, List.mem_map,
      List.mem_filter, bne_iff_ne]
    constructor
    · rintro ⟨p, ⟨hp, hne⟩, rfl⟩; exact ⟨⟨p, hp, rfl⟩, hne⟩
    · rintro ⟨⟨p, hp, rfl⟩, hne⟩; exact ⟨p, ⟨hp, hne⟩, rfl⟩
  have haddNames : ∀ c vals y, (y ∈ (addCol df c vals).colNames ↔
      y ∈ df.colNames ∨ y = c) := by
    intro c vals y
    simp only [DataFrame.colNames, addCol, List.mem_toFinset, List.mem_map,
      List.mem_append, List.mem_singleton]
    constructor
    · rintro ⟨p, hp | hp, rfl⟩
      · exact Or.inl ⟨p, hp, rfl⟩
      · subst hp; exact Or.inr rfl
    · rintro (⟨p, hp, rfl⟩ | rfl)
      · exact ⟨p, Or.inl hp, rfl⟩
      · exact ⟨(y, vals), Or.inr rfl, rfl⟩
  refine ⟨?_, ?_, ?_, ?_, ?_, ?_⟩
  · simp [metrics, metrics_schema_consistency]
  · simp [metrics, metrics_column_name_consistency]
  · intro c vals hc
    constructor <;>
    · ext y
      simp only [metrics_schema_consistency, metrics_column_name_consistency,
        Finset.mem_sdiff, List.mem_toFinset, haddNames]
      constructor
      · rintro ⟨hy, hns⟩; exact ⟨hy, fun h => hns (Or.inl h)⟩
      · rintro ⟨hy, hns⟩
        refine ⟨hy, ?_⟩
        rintro (h | rfl)
        · exact hns h
        · exact hc hy
  · intro c hcL
    refine ⟨?_, ?_, ?_⟩
    · ext y
      simp only [metrics_schema_consistency, Finset.mem_sdiff,
        List.mem_toFinset, Finset.mem_insert, hdropNames]
      constructor
      · rintro ⟨hy, hns⟩
        by_cases hyc : y = c
        · exact Or.inl hyc
        · exact Or.inr ⟨hy, fun h => hns ⟨h, hyc⟩⟩
      · rintro (rfl | ⟨hy, hns⟩)
        · exact ⟨hcL, fun h => h.2 rfl⟩
        · exact ⟨hy, fun h => hns h.1⟩
    · intro hcdf
      simp [metrics_schema_consistency, hcdf]
    · ext y
      simp only [metrics_column_name_consistency, Finset.mem_sdiff,
        List.mem_toFinset, Finset.mem_insert, hdropNames]
      constructor
      · rintro ⟨hy, hns⟩
        by_cases hyc : y = c
        · exact Or.inl hyc
        · exact Or.inr ⟨hy, fun h => hns ⟨h, hyc⟩⟩
      · rintro (rfl | ⟨hy, hns⟩)
        · exact ⟨hcL, fun h => h.2 rfl⟩
        · exact ⟨hy, fun h => hns h.1⟩
  · simp only [rules, if_pos rfl]
    simp [rules_schema_consistency, metrics_schema_consistency, Except.map,
      Finset.card_eq_zero, Finset.sdiff_eq_empty_iff_subset,
      Finset.subset_iff, List.mem_toFinset]
  · simp only [rules]
    norm_num
    simp [rules_column_name_consistency, metrics_column_name_consistency,
      Except.map, Finset.card_eq_zero, Finset.sdiff_eq_empty_iff_subset,
      Finset.subset_iff, List.mem_toFinset]

/-- Witness for C4: adding an unexpected column and dropping an expected
one on the fixture table. -/
theorem set_difference_checks_directional_witness :
    "extra" ∉ ["id", "name"] ∧
    metrics_schema_consistency (addCol sample_df "extra" []) ["id", "name"] =
      metrics_schema_consistency sample_df ["id", "name"] ∧
    "id" ∈ ["id", "name"] ∧
    metrics_schema_consistency (dropCol sample_df "id") ["id", "name"] =
      insert "id" (metrics_schema_consistency sample_df ["id", "name"]) :=
  ⟨by decide,
   ((set_difference_checks_directional sample_df ["id", "name"]
      (fun _ => "")).2.2.1 "extra" [] (by decide)).1,
   by decide,
   ((set_difference_checks_directional sample_df ["id", "name"]
      (fun _ => "")).2.2.2.1 "id" (by decide)).1⟩

/-! ### C5 -/

/-- C5: for a non-empty historical sequence and positive lookback, the
`record_anomalies` metric is the pair (mean, population standard
deviation) of the last `min p (length H)` entries, and the rule passes
iff the current count lies within `mean ± 3·std`, both bounds
inclusive. -/
theorem record_anomalies_window_and_bounds :
    ∀ (H : List ℚ) (p : ℤ) (c : ℚ) (fmt : ℝ → String),
      H ≠ [] → 0 < p →
      pySliceFrom H (-p) = H.drop (H.length - p.toNat) ∧
      (H.drop (H.length - p.toNat)).length = min p.toNat H.length ∧
      metrics "record_anomalies" [.series H, .int p] =
        .ok (.meanStd (npMean (H.drop (H.length - p.toNat)))
                      (npStd (H.drop (H.length - p.toNat)))) ∧
      (((rules fmt "record_anomalies" [.series H, .num c, .int p]).map
          Prod.fst = .ok true) ↔
        ((npMean (H.drop (H.length - p.toNat)) : ℝ)
            - 3 * npStd (H.drop (H.length - p.toNat)) ≤ (c : ℝ) ∧
         (c : ℝ) ≤ (npMean (H.drop (H.length - p.toNat)) : ℝ)
            + 3 * npStd (H.drop (H.length - p.toNat)))) := by
  intro H p c fmt _ hp
  have hneg : -p < 0 := by omega
  have hslice : pySliceFrom H (-p) = H.drop (H.length - p.toNat) := by
    simp only [pySliceFrom, if_pos hneg]
    congr 1
    omega
  refine ⟨hslice, ?_, ?_, ?_⟩
  · simp only [List.length_drop]
    omega
  · simp [metrics, metrics_record_anomalies, hslice]
  · simp [rules, rules_record_anomalies, metrics_record_anomalies, hslice,
      Except.map, decide_eq_true_iff]

/-- Witness for C5 at `H = [100]`, lookback 1, current count 100. -/
theorem record_anomalies_window_and_bounds_witness :
    ([100] : List ℚ) ≠ [] ∧ (0 : ℤ) < 1 ∧
    pySliceFrom [100] (-1) = ([100] : List ℚ).drop (([100] : List ℚ).length - (1 : ℤ).toNat) :=
  ⟨by decide, by decide,
    (record_anomalies_window_and_bounds [100] 1 100 (fun _ => "")
      (by decide) (by decide)).1⟩

/-! ### C6 -/

/-- C6: the variance rule passes iff the sample variance of the column
is at most `max_variance`, and invoking the variance rule without the
`max_variance` argument (it has no default) fails with a
missing-argument error. -/
theorem variance_rule_and_missing_argument :
    ∀ (df : DataFrame) (c : String) (l : List Cell) (maxv : ℚ)
      (fmt : ℝ → String),
      df.col? c = some l → 2 ≤ (colVals l).length →
      metrics "variance" [.table df, .name c] =
        .ok (.ratVal (sampleVar (colVals l))) ∧
      (((rules fmt "variance" [.table df, .name c, .num maxv]).map Prod.fst =
          .ok true) ↔ sampleVar (colVals l) ≤ maxv) ∧
      rules fmt "variance" [.table df, .name c] =
        .error "TypeError: rules_variance missing 1 required positional argument: max_variance" := by
  intro df c l maxv fmt hcol _
  refine ⟨?_, ?_, ?_⟩
  · simp [metrics, metrics_variance, get_eq_ok hcol, Except.map]
  · simp [rules, rules_variance, metrics_variance, get_eq_ok hcol, Except.map,
      decide_eq_true_iff]
  · simp [rules]

/-- Witness for C6 at the fixture value column. -/
theorem variance_rule_and_missing_argument_witness :
    sample_df.col? "value" =
      some [.num 10, .num 20, .num 30, .num 40, .num 50] ∧
    2 ≤ (colVals [.num 10, .num 20, .num 30, .num 40, .num 50]).length ∧
    rules (fun _ => "") "variance" [.table sample_df, .name "value"] =
      .error "TypeError: rules_variance missing 1 required positional argument: max_variance" :=
  ⟨by decide, by decide,
    (variance_rule_and_missing_argument sample_df "value"
      [.num 10, .num 20, .num 30, .num 40, .num 50] 50 (fun _ => "")
      (by decide) (by decide)).2.2⟩

/-! ### C7 -/

/-- C7: when every column of `L` exists, the `non_null` metric maps each
column of `L` to its null count, the rule passes iff every such count is
0, and the message reports exactly the columns with nonzero counts. -/
theorem non_null_rule_correct :
    ∀ (df : DataFrame) (L : List String) (fmt : ℝ → String),
      (∀ c ∈ L, (df.col? c).isSome = true) →
      metrics "non_null" [.table df, .names L] =
        .ok (.countMap (L.map (fun c => (c, nullCount ((df.col? c).getD []))))) ∧
      (((rules fmt "non_null" [.table df, .names L]).map Prod.fst = .ok true) ↔
        ∀ c ∈ L, nullCount ((df.col? c).getD []) = 0) ∧
      ((rules fmt "non_null" [.table df, .names L]).map Prod.snd =
        .ok ("Null values found in columns: " ++ renderCounts
          ((L.map (fun c => (c, nullCount ((df.col? c).getD [])))).filter
            (fun p => 0 < p.2)))) := by
  intro df L fmt hall
  have hmetrics : metrics_non_null df L =
      .ok (L.map (fun c => (c, nullCount ((df.col? c).getD [])))) := by
    induction L with
    | nil => simp [metrics_non_null]
    | cons c cs ih =>
      have hc := hall c (by simp)
      rcases Option.isSome_iff_exists.mp hc with ⟨l, hl⟩
      have ihh := ih (fun x hx => hall x (by simp [hx]))
      simp [metrics_non_null, ihh, get_eq_ok hl, hl]
  refine ⟨?_, ?_, ?_⟩
  · simp [metrics, hmetrics, Except.map]
  · simp only [rules, if_pos rfl]
    simp [rules_non_null, hmetrics, Except.map, decide_eq_true_iff,
      List.filter_eq_nil_iff, List.length_eq_zero, List.mem_map]
  · simp only [rules, if_pos rfl]
    simp [rules_non_null, hmetrics, Except.map]

/-- Witness for C7 at the fixture table with `L = ["name"]`. -/
theorem non_null_rule_correct_witness :
    (∀ c ∈ ["name"], (sample_df.col? c).isSome = true) ∧
    metrics "non_null" [.table sample_df, .names ["name"]] =
      .ok (.countMap (["name"].map
        (fun c => (c, nullCount ((sample_df.col? c).getD []))))) :=
  ⟨by decide,
    (non_null_rule_correct sample_df ["name"] (fun _ => "") (by decide)).1⟩

/-! ### C8 -/

theorem mentions_here (a n b : String) : Mentions n (a ++ n ++ b) :=
  ⟨a, b, rfl⟩

theorem mentions_self (n : String) : Mentions n n :=
  ⟨"", "", by rw [String.append_empty, String.empty_append]⟩

theorem mentions_at_front (n s : String) : Mentions n (n ++ s) :=
  ⟨"", s, by rw [String.empty_append]⟩

theorem mentions_at_end (s n : String) : Mentions n (s ++ n) :=
  ⟨s, "", (String.append_empty (s ++ n)).symm⟩

theorem mentions_append_right {n s : String} (t : String)
    (h : Mentions n s) : Mentions n (s ++ t) := by
  rcases h with ⟨a, b, rfl⟩
  exact ⟨a, b ++ t, (String.append_assoc (a ++ n) b t).symm ▸ rfl⟩

theorem mentions_append_left {n s : String} (t : String)
    (h : Mentions n s) : Mentions n (t ++ s) := by
  rcases h with ⟨a, b, rfl⟩
  refine ⟨t ++ a, b, ?_⟩
  rw [← String.append_assoc, ← String.append_assoc]

/-- C8 counterexample: `rules_non_zero_records` returns the same fixed
message on a passing 5-row table and on a failing 0-row table whose
metrics differ, so its message does not describe the observed metric,
refuting the claim for the `non_zero_records` rule. -/
theorem message_informativeness_counterexample :
    rules_non_zero_records sample_df =
      (true, "No records found in the dataset.") ∧
    rules_non_zero_records empty_df =
      (false, "No records found in the dataset.") ∧
    metrics_non_zero_records sample_df ≠ metrics_non_zero_records empty_df := by
  refine ⟨by decide, by decide, by decide⟩

/-- C8 amended: every rule returns a `(passed, message)` pair; for the
eight checks other than `non_zero_records` the message reports the
observed metric (and the threshold it was judged against, where one
exists), on success as well as failure; `rules_non_zero_records` instead
always returns the fixed message `"No records found in the dataset."`,
which does not describe the observed row count. -/
theorem rule_messages_report_metrics :
    (∀ (df : DataFrame) (c : String) (l : List Cell) (b : Bool) (m : String),
      df.col? c = some l → rules_unique_identifiers df c = .ok (b, m) →
      Mentions (toString (dupCount [] l)) m) ∧
    (∀ (df : DataFrame) (L : List String),
      Mentions (renderSet (metrics_schema_consistency df L))
        (rules_schema_consistency df L).2) ∧
    (∀ (df : DataFrame) (L : List String) (nc : List (String × Nat))
      (b : Bool) (m : String),
      metrics_non_null df L = .ok nc → rules_non_null df L = .ok (b, m) →
      Mentions (renderCounts (nc.filter (fun p => 0 < p.2))) m) ∧
    (∀ (df : DataFrame) (c : String) (l : List Cell) (lo hi : ℚ)
      (b : Bool) (m : String),
      df.col? c = some l → rules_threshold df c lo hi = .ok (b, m) →
      Mentions (toString ((l.filter
        (fun x => cellLt x lo || cellGt x hi)).length)) m ∧
      Mentions (toString lo) m ∧ Mentions (toString hi) m) ∧
    (∀ (df : DataFrame) (c : String) (l : List Cell) (r t : ℚ)
      (b : Bool) (m : String),
      df.col? c = some l → rules_dynamic_threshold df c r t = .ok (b, m) →
      Mentions (toString ((l.filter (fun x =>
        cellLt x (r * (1 - t)) || cellGt x (r * (1 + t)))).length)) m) ∧
    (∀ (df : DataFrame) (c : String) (l : List Cell) (maxv : ℚ)
      (b : Bool) (m : String),
      df.col? c = some l → rules_variance df c maxv = .ok (b, m) →
      Mentions (toString (sampleVar (colVals l))) m ∧
      Mentions (toString maxv) m) ∧
    (∀ (fmt : ℝ → String) (H : List ℚ) (c : ℚ) (p : ℤ),
      Mentions (toString c) (rules_record_anomalies fmt H c p).2 ∧
      Mentions (fmt (((metrics_record_anomalies H p).1 : ℝ)
          - 3 * (metrics_record_anomalies H p).2))
        (rules_record_anomalies fmt H c p).2 ∧
      Mentions (fmt (((metrics_record_anomalies H p).1 : ℝ)
          + 3 * (metrics_record_anomalies H p).2))
        (rules_record_anomalies fmt H c p).2) ∧
    (∀ (df : DataFrame) (L : List String),
      Mentions (renderSet (metrics_column_name_consistency df L))
        (rules_column_name_consistency df L).2) ∧
    (∀ df : DataFrame, rules_non_zero_records df =
      (decide (0 < df.nrows), "No records found in the dataset.")) := by
  refine ⟨?_, ?_, ?_, ?_, ?_, ?_, ?_, ?_, ?_⟩
  · intro df c l b m hcol hok
    simp [rules_unique_identifiers, metrics_unique_identifiers,
      get_eq_ok hcol, Except.map] at hok
    rcases hok with ⟨-, rfl⟩
    exact mentions_at_front _ _
  · intro df L
    exact mentions_at_end _ _
  · intro df L nc b m hnc hok
    simp [rules_non_null, hnc] at hok
    rcases hok with ⟨-, rfl⟩
    exact mentions_at_end _ _
  · intro df c l lo hi b m hcol hok
    simp [rules_threshold, metrics_threshold, get_eq_ok hcol,
      Except.map] at hok
    rcases hok with ⟨-, rfl⟩
    refine ⟨?_, ?_, ?_⟩
    · exact mentions_append_right _ (mentions_append_right _
        (mentions_append_right _ (mentions_append_right _
          (mentions_at_front _ _))))
    · exact mentions_append_right _ (mentions_append_right _
        (mentions_append_right _ (mentions_at_end _ _)))
    · exact mentions_append_right _ (mentions_at_end _ _)
  · intro df c l r t b m hcol hok
    simp [rules_dynamic_threshold, metrics_dynamic_threshold,
      get_eq_ok hcol, Except.map] at hok
    rcases hok with ⟨-, rfl⟩
    exact mentions_at_front _ _
  · intro df c l maxv b m hcol hok
    simp [rules_variance, metrics_variance, get_eq_ok hcol,
      Except.map] at hok
    rcases hok with ⟨-, rfl⟩
    constructor
    · exact mentions_append_right _ (mentions_append_right _
        (mentions_append_right _ (mentions_at_end _ _)))
    · exact mentions_append_right _ (mentions_at_end _ _)
  · intro fmt H c p
    refine ⟨?_, ?_, ?_⟩
    · exact mentions_append_right _ (mentions_append_right _
        (mentions_append_right _ (mentions_append_right _
          (mentions_append_right _ (mentions_at_end _ _)))))
    · exact mentions_append_right _ (mentions_append_right _
        (mentions_append_right _ (mentions_at_end _ _)))
    · exact mentions_append_right _ (mentions_at_end _ _)
  · intro df L
    exact mentions_at_end _ _
  · intro df
    rfl

/-- Witness for C8's amended theorem: the unique-identifiers message on
the fixture reports the duplicate count. -/
theorem rule_messages_report_metrics_witness :
    sample_df.col? "id" = some [.num 1, .num 2, .num 3, .num 4, .num 4] ∧
    rules_unique_identifiers sample_df "id" =
      .ok (false, "1 duplicate identifiers found.") ∧
    Mentions (toString (dupCount []
        [.num 1, .num 2, .num 3, .num 4, .num 4]))
      "1 duplicate identifiers found." :=
  ⟨by decide, by rfl,
    rule_messages_report_metrics.1 sample_df "id"
      [.num 1, .num 2, .num 3, .num 4, .num 4] false
      "1 duplicate identifiers found." (by decide) (by rfl)⟩

/-! ### C9 -/

/-- C9: running any sequence of dispatcher invocations leaves the
caller's environment (the tables and sequences passed in) and the
instance state unchanged, and every invocation's result is the same pure
function of its own call alone — independent of the call history — so
repeated invocation with equal inputs yields equal results. -/
theorem checks_stateless_and_pure :
    ∀ (fmt : ℝ → String) (env : List (String × Arg)) (st : CCInstance)
      (calls : List Call),
      (runTrace fmt env st calls).1 = env ∧
      (runTrace fmt env st calls).2.1 = st ∧
      (runTrace fmt env st calls).2.2 =
        calls.map (fun c => (runCall fmt env st c).2.2) := by
  intro fmt env st calls
  induction calls with
  | nil => exact ⟨rfl, rfl, rfl⟩
  | cons c cs ih =>
    have hc1 : (runCall fmt env st c).1 = env := rfl
    have hc2 : (runCall fmt env st c).2.1 = st := rfl
    simp only [runTrace, List.map_cons, hc1, hc2]
    exact ⟨ih.1, ih.2.1, by rw [ih.2.2]⟩

/-! ### C10 -/

/-- C10: a lookback period of 0 selects the whole historical sequence
(Python `xs[-0:]` is `xs[0:]`), so the `record_anomalies` metric is the
mean and population standard deviation of all of `H`. -/
theorem record_anomalies_zero_lookback :
    ∀ H : List ℚ,
      pySliceFrom H (-(0 : ℤ)) = H ∧
      metrics "record_anomalies" [.series H, .int 0] =
        .ok (.meanStd (npMean H) (npStd H)) := by
  intro H
  have hslice : pySliceFrom H (-(0 : ℤ)) = H := by
    simp [pySliceFrom]
  exact ⟨hslice, by simp [metrics, metrics_record_anomalies, pySliceFrom]⟩

end DataQuality
